import Mathlib

/-!
Verification of the Palmer Penguins dashboard (`src/server.py`).

Shallow embedding: the Observation Table is a list of rows; pandas
boolean-mask filtering is `List.filter`; `Series.isin` is list membership,
where an absent (null) value is never a member of a list of strings;
`sorted(series.unique())` is sorting the deduplicated column; `Series.mean`
is the mean of the non-null entries, undefined (`none`) when there are none.
Process environment is a partial map from variable names to strings, and a
Snowflake connection is represented by the keyword arguments the code passes
to `snowflake.connector.connect`.
-/

namespace Penguins

/-- One row of the Observation Table.  `SEX` may be absent (pandas NaN),
as may the numeric measurements; categorical values are strings. -/
structure Row where
  species : String
  island : String
  sex : Option String
  bill_length_mm : Option ℚ
  bill_depth_mm : Option ℚ
  flipper_length_mm : Option ℚ
  body_mass_g : Option ℚ
deriving DecidableEq, Repr

/-- The Observation Table: an in-memory dataframe, one `Row` per record. -/
abbrev Df := List Row

/-- The process environment: `os.environ` as a map to optional values. -/
structure Env where
  vars : String → Option String

/-- `os.getenv(key)`. -/
def getenv (e : Env) (key : String) : Option String :=
  e.vars key

/-- `os.getenv(key, default)`. -/
def getenvD (e : Env) (key default : String) : String :=
  (e.vars key).getD default

/-- `DEPLOYMENT_ENV = os.getenv("DEPLOYMENT_ENV", "LOCAL")` (server.py line 7). -/
def DEPLOYMENT_ENV (e : Env) : String :=
  getenvD e "DEPLOYMENT_ENV" "LOCAL"

/-- The numeric value of a decimal digit character, if it is one. -/
def digit? (c : Char) : Option Nat :=
  if 48 ≤ c.toNat ∧ c.toNat ≤ 57 then some (c.toNat - 48) else none

/-- Accumulate a decimal digit string left to right. -/
def digitsValAux (acc : Nat) : List Char → Option Nat
  | [] => some acc
  | c :: cs =>
      match digit? c with
      | some d => digitsValAux (10 * acc + d) cs
      | none => none

/-- Python `int(s)` on a decimal string: optional sign followed by at least
one digit; anything else raises, modelled as `none`. -/
def parsePyInt (s : String) : Option Int :=
  match s.data with
  | [] => none
  | '-' :: cs => if cs = [] then none else (digitsValAux 0 cs).map fun n => -(n : Int)
  | '+' :: cs => if cs = [] then none else (digitsValAux 0 cs).map fun n => (n : Int)
  | cs => (digitsValAux 0 cs).map fun n => (n : Int)

/-- `CONNECTION_TIMEOUT = int(os.getenv("SNOWFLAKE_CONNECTION_TIMEOUT", "15"))`
(server.py line 10).  `int(...)` fails on a non-numeric string, hence `Option`. -/
def CONNECTION_TIMEOUT (e : Env) : Option Int :=
  parsePyInt (getenvD e "SNOWFLAKE_CONNECTION_TIMEOUT" "15")

/-- The keyword arguments `get_db_connection` passes to
`snowflake.connector.connect`, one constructor per branch. -/
inductive ConnectionParams where
  | workloadIdentity (account : Option String) (authenticator : String)
      (workload_identity_provider : String) (warehouse : String)
      (role user : Option String) (login_timeout network_timeout : Int)
  | envCredentials (account user password : Option String) (warehouse : String)
      (role database : Option String) (login_timeout network_timeout : Int)
  | secretsToml (login_timeout network_timeout : Int)
deriving DecidableEq, Repr

/-- The login timeout passed on each branch. -/
def ConnectionParams.loginTimeout : ConnectionParams → Int
  | .workloadIdentity _ _ _ _ _ _ lt _ => lt
  | .envCredentials _ _ _ _ _ _ lt _ => lt
  | .secretsToml lt _ => lt

/-- The network timeout passed on each branch. -/
def ConnectionParams.networkTimeout : ConnectionParams → Int
  | .workloadIdentity _ _ _ _ _ _ _ nt => nt
  | .envCredentials _ _ _ _ _ _ _ nt => nt
  | .secretsToml _ nt => nt

/-- `get_db_connection` (server.py lines 29-67): branch on `DEPLOYMENT_ENV`,
producing the connect keyword arguments.  `none` models the import-time
failure of `int(...)` on an unparsable timeout. -/
def get_db_connection (e : Env) : Option ConnectionParams :=
  (CONNECTION_TIMEOUT e).map fun t =>
    if DEPLOYMENT_ENV e = "AWS" then
      .workloadIdentity (getenv e "SNOWFLAKE_ACCOUNT") "WORKLOAD_IDENTITY" "AWS"
        (getenvD e "SNOWFLAKE_WAREHOUSE" "COMPUTE_WH")
        (getenv e "SNOWFLAKE_ROLE") (getenv e "SNOWFLAKE_USER") t t
    else if DEPLOYMENT_ENV e = "DOCKER" then
      .envCredentials (getenv e "SNOWFLAKE_ACCOUNT") (getenv e "SNOWFLAKE_USER")
        (getenv e "SNOWFLAKE_PASSWORD")
        (getenvD e "SNOWFLAKE_WAREHOUSE" "COMPUTE_WH")
        (getenv e "SNOWFLAKE_ROLE") (getenv e "DEMO_DATABASE") t t
    else
      .secretsToml t t

/-- `table_name = f"{os.getenv('DEMO_DATABASE', 'DEMO_DB')}.PUBLIC.PENGUINS"`
(server.py line 74). -/
def tableName (e : Env) : String :=
  getenvD e "DEMO_DATABASE" "DEMO_DB" ++ ".PUBLIC.PENGUINS"

/-- The single statement `load_penguins_data` executes (server.py line 76). -/
def penguinsQuery (e : Env) : String :=
  "SELECT * FROM " ++ tableName e

/-- `load_penguins_data` (server.py lines 70-77): execute the fixed query and
fetch every result row.  The warehouse is abstracted as a map from query
text to result rows; `fetch_pandas_all` returns them all, unmodified. -/
def load_penguins_data (e : Env) (warehouse : String → Df) : Df :=
  warehouse (penguinsQuery e)

/-- Python string comparison on character lists: lexicographic by Unicode
code point, shorter prefix first. -/
def lexLe : List Char → List Char → Bool
  | [], _ => true
  | _ :: _, [] => false
  | a :: as, b :: bs =>
      if a.toNat < b.toNat then true
      else if b.toNat < a.toNat then false
      else lexLe as bs

/-- Python `str` comparison, as used by `sorted` on string lists. -/
def strLe (a b : String) : Bool :=
  lexLe a.data b.data

/-- Python `sorted` on a list of strings. -/
def sortStrings (l : List String) : List String :=
  l.insertionSort (fun a b => strLe a b = true)

/-- `sorted(df["SPECIES"].unique())` (server.py lines 146-147): the distinct
species values, sorted.  Sorting makes the occurrence order produced by
`unique()` irrelevant. -/
def speciesOptions (df : Df) : List String :=
  sortStrings (df.map Row.species).dedup

/-- `sorted(df["ISLAND"].unique())` (server.py lines 153-154). -/
def islandOptions (df : Df) : List String :=
  sortStrings (df.map Row.island).dedup

/-- `sorted(df["SEX"].dropna().unique())` (server.py lines 158-161):
`dropna` removes the absent values, so the options are the distinct
non-null sex values, sorted. -/
def sexOptions (df : Df) : List String :=
  sortStrings (df.filterMap Row.sex).dedup

/-- The boolean mask of server.py lines 166-170:
`df["SPECIES"].isin(species) & df["ISLAND"].isin(islands) & df["SEX"].isin(sex_filter)`.
`isin` is membership; a null (NaN) sex value is not a member of any list of
strings, so it yields `false`. -/
def rowMatches (species islands sexes : List String) (r : Row) : Bool :=
  decide (r.species ∈ species) && decide (r.island ∈ islands) &&
    match r.sex with
    | some v => decide (v ∈ sexes)
    | none => false

/-- `df[mask]`: keep exactly the rows whose mask entry is true, in order. -/
def applyFilter (df : Df) (species islands sexes : List String) : Df :=
  df.filter (rowMatches species islands sexes)

/-- `render_sidebar` (server.py lines 139-175), data part: given the current
multiselect selections, return the filtered dataframe.  The widgets'
`options`/`default` are `speciesOptions`/`islandOptions`/`sexOptions`. -/
def render_sidebar (df : Df) (species islands sexes : List String) : Df :=
  applyFilter df species islands sexes

/-- The default multiselect selections: every option selected
(`default=sorted(...unique())`, server.py lines 147, 154, 162). -/
def defaultSelections (df : Df) : List String × List String × List String :=
  (speciesOptions df, islandOptions df, sexOptions df)

/-- `Series.mean()` with pandas default null handling: the mean of the
non-null entries, undefined (NaN, modelled `none`) when there are none. -/
def meanBodyMass (df : Df) : Option ℚ :=
  let vals := df.filterMap Row.body_mass_g
  if vals.length = 0 then none else some (vals.sum / vals.length)

/-- The four scalars of `render_metrics` (server.py lines 124-136). -/
structure Metrics where
  totalPenguins : Nat
  speciesCount : Nat
  islandCount : Nat
  avgBodyMass : Option ℚ
deriving DecidableEq, Repr

/-- `render_metrics` (server.py lines 124-136): `len(df)`,
`df["SPECIES"].nunique()`, `df["ISLAND"].nunique()`,
`df["BODY_MASS_G"].mean()`. -/
def render_metrics (df : Df) : Metrics :=
  { totalPenguins := df.length
    speciesCount := ((df.map Row.species).dedup).length
    islandCount := ((df.map Row.island).dedup).length
    avgBodyMass := meanBodyMass df }

/-- The user-visible elements `main` can emit, in emission order. -/
inductive Display where
  | header
  | dashboardBody
  | footer (env : String)
  | errorBanner (msg : String)
  | awsChecklist
  | infoCheckConnection
deriving DecidableEq, Repr

/-- `main` (server.py lines 233-272).  `render_header()` runs before the
`try` block.  The body of the `try` is abstracted as the load result
(`load_penguins_data` may raise) chained with the render steps
(`render_sidebar` through the footer caption, any of which may raise);
`Except.error msg` models a raised exception with message `msg`.  On error:
`st.error(f"Failed to load data: {e}")`, then the AWS checklist
(`st.warning`) exactly when `DEPLOYMENT_ENV == "AWS"`, then `st.info`.
`main` is a total function: no exception escapes it. -/
def main (e : Env) (loadRes : Except String Df)
    (renderBody : Df → Except String (List Display)) : List Display :=
  Display.header ::
    match loadRes.bind renderBody with
    | .ok body => body ++ [Display.footer (DEPLOYMENT_ENV e)]
    | .error msg =>
        Display.errorBanner ("Failed to load data: " ++ msg) ::
          (if DEPLOYMENT_ENV e = "AWS" then [Display.awsChecklist] else []) ++
            [Display.infoCheckConnection]

/-- Modelled from the spec: the `@st.cache_data(ttl=300)` decorator on
`load_penguins_data` lives in the Streamlit framework, not in this
repository.  Per the spec, the "result is cached for 300 seconds
(time-to-live), after which the next call re-executes the query".  A cache
entry records the cached rows and the time they were fetched. -/
structure CacheState where
  value : Df
  fetchedAt : Nat
deriving DecidableEq, Repr

/-- Modelled from the spec: the cache entry is valid for 300 seconds. -/
def cacheTTL : Nat := 300

/-- Modelled from the spec: one call of the cached `load_penguins_data` at
time `now`.  `issuedQuery` records whether the warehouse query was
(re-)executed on this call. -/
structure LoadOutcome where
  value : Df
  cache : Option CacheState
  issuedQuery : Bool
deriving DecidableEq, Repr

/-- Modelled from the spec: calling the TTL-cached `load_penguins_data`.
A stored entry younger than `cacheTTL` is returned as a cache hit without
re-issuing the query; a missing or expired entry makes the call re-execute
the query and store the fresh result. -/
def cachedLoad (e : Env) (warehouse : String → Df) (now : Nat)
    (cache : Option CacheState) : LoadOutcome :=
  match cache with
  | some entry =>
      if now - entry.fetchedAt < cacheTTL then
        { value := entry.value, cache := some entry, issuedQuery := false }
      else
        let v := load_penguins_data e warehouse
        { value := v, cache := some { value := v, fetchedAt := now }, issuedQuery := true }
  | none =>
      let v := load_penguins_data e warehouse
      { value := v, cache := some { value := v, fetchedAt := now }, issuedQuery := true }

/-! Order lemmas for the string comparison, and evaluation lemmas for the
sorted option lists. -/

theorem lexLe_cons_iff {a b : Char} {as bs : List Char} :
    lexLe (a :: as) (b :: bs) = true ↔
      a.toNat < b.toNat ∨ (a.toNat = b.toNat ∧ lexLe as bs = true) := by
  by_cases h1 : a.toNat < b.toNat
  · simp [lexLe, h1]
  · by_cases h2 : b.toNat < a.toNat
    · simp only [lexLe, if_neg h1, if_pos h2]
      refine ⟨fun h => absurd h (by simp), ?_⟩
      rintro (h | ⟨h, _⟩) <;> omega
    · have he : a.toNat = b.toNat := by omega
      simp only [lexLe, if_neg h1, if_neg h2]
      refine ⟨fun h => Or.inr ⟨he, h⟩, ?_⟩
      rintro (h | ⟨_, h⟩)
      · exact absurd h h1
      · exact h

theorem lexLe_total : ∀ a b : List Char, lexLe a b = true ∨ lexLe b a = true
  | [], _ => Or.inl rfl
  | _ :: _, [] => Or.inr rfl
  | a :: as, b :: bs => by
      simp only [lexLe_cons_iff]
      rcases Nat.lt_trichotomy a.toNat b.toNat with h | h | h
      · exact Or.inl (Or.inl h)
      · rcases lexLe_total as bs with hr | hr
        · exact Or.inl (Or.inr ⟨h, hr⟩)
        · exact Or.inr (Or.inr ⟨h.symm, hr⟩)
      · exact Or.inr (Or.inl h)

theorem lexLe_trans : ∀ a b c : List Char,
    lexLe a b = true → lexLe b c = true → lexLe a c = true
  | [], _, _, _, _ => rfl
  | _ :: _, [], _, h1, _ => by simp [lexLe] at h1
  | _ :: _, _ :: _, [], _, h2 => by simp [lexLe] at h2
  | a :: as, b :: bs, c :: cs, h1, h2 => by
      rw [lexLe_cons_iff] at h1 h2 ⊢
      rcases h1 with h1 | ⟨he1, h1⟩
      · rcases h2 with h2 | ⟨he2, h2⟩
        · exact Or.inl (by omega)
        · exact Or.inl (by omega)
      · rcases h2 with h2 | ⟨he2, h2⟩
        · exact Or.inl (by omega)
        · exact Or.inr ⟨by omega, lexLe_trans as bs cs h1 h2⟩

instance : IsTotal String fun a b => strLe a b = true :=
  ⟨fun a b => lexLe_total a.data b.data⟩

instance : IsTrans String fun a b => strLe a b = true :=
  ⟨fun a b c => lexLe_trans a.data b.data c.data⟩

theorem sortStrings_perm (l : List String) : List.Perm (sortStrings l) l :=
  List.perm_insertionSort _ l

theorem sortStrings_sorted (l : List String) :
    (sortStrings l).Sorted fun a b => strLe a b = true :=
  List.sorted_insertionSort _ l

theorem mem_sortStrings {a : String} {l : List String} :
    a ∈ sortStrings l ↔ a ∈ l :=
  (sortStrings_perm l).mem_iff

theorem sortStrings_nodup {l : List String} (h : l.Nodup) :
    (sortStrings l).Nodup :=
  (sortStrings_perm l).nodup_iff.mpr h

theorem mem_speciesOptions {a : String} {df : Df} :
    a ∈ speciesOptions df ↔ a ∈ df.map Row.species := by
  unfold speciesOptions
  rw [mem_sortStrings, List.mem_dedup]

theorem mem_islandOptions {a : String} {df : Df} :
    a ∈ islandOptions df ↔ a ∈ df.map Row.island := by
  unfold islandOptions
  rw [mem_sortStrings, List.mem_dedup]

theorem mem_sexOptions {a : String} {df : Df} :
    a ∈ sexOptions df ↔ ∃ r ∈ df, r.sex = some a := by
  unfold sexOptions
  rw [mem_sortStrings, List.mem_dedup, List.mem_filterMap]

theorem rowMatches_mono {s1 s2 i1 i2 x1 x2 : List String}
    (hs : s1 ⊆ s2) (hi : i1 ⊆ i2) (hx : x1 ⊆ x2) :
    ∀ r : Row, rowMatches s1 i1 x1 r = true → rowMatches s2 i2 x2 r = true := by
  intro r h
  obtain ⟨sp, il, sx, b1, b2, b3, b4⟩ := r
  cases sx with
  | none => simp [rowMatches] at h
  | some v =>
      simp only [rowMatches, Bool.and_eq_true, decide_eq_true_eq] at h ⊢
      exact ⟨⟨hs h.1.1, hi h.1.2⟩, hx h.2⟩

/-! Concrete fixtures used by witnesses and counterexamples. -/

/-- A row whose sex value is absent. -/
def rowNoSex : Row :=
  ⟨"Adelie", "Torgersen", none, none, none, none, none⟩

/-- A male Adelie row. -/
def rowAdelieM : Row :=
  ⟨"Adelie", "Torgersen", some "MALE", some 39, some 18, some 181, some 3750⟩

/-- A female Gentoo row. -/
def rowGentooF : Row :=
  ⟨"Gentoo", "Biscoe", some "FEMALE", none, none, none, some 5000⟩

/-- An environment with no variables set. -/
def envEmpty : Env := ⟨fun _ => none⟩

/-- An environment selecting the AWS deployment mode. -/
def envAWS : Env := ⟨fun k => if k = "DEPLOYMENT_ENV" then some "AWS" else none⟩

/-- An environment selecting the DOCKER deployment mode. -/
def envDocker : Env := ⟨fun k => if k = "DEPLOYMENT_ENV" then some "DOCKER" else none⟩

/-- A warehouse with no rows for any query. -/
def warehouseEmpty : String → Df := fun _ => []

/-! The claims. -/

/-- C2: for every deployment-mode value the Connection Provider selects the
documented credential path — "AWS" the workload-identity (secretless) path,
"DOCKER" the explicit environment-variable credential path, and "LOCAL" or
any unrecognized value the local secret-store path — and every path applies
the login and network timeout from `SNOWFLAKE_CONNECTION_TIMEOUT`, which
defaults to 15 seconds when the variable is unset. -/
theorem connection_selects_documented_path (e : Env) (t : Int)
    (ht : CONNECTION_TIMEOUT e = some t) :
    (DEPLOYMENT_ENV e = "AWS" →
      get_db_connection e = some (.workloadIdentity (getenv e "SNOWFLAKE_ACCOUNT")
        "WORKLOAD_IDENTITY" "AWS" (getenvD e "SNOWFLAKE_WAREHOUSE" "COMPUTE_WH")
        (getenv e "SNOWFLAKE_ROLE") (getenv e "SNOWFLAKE_USER") t t)) ∧
    (DEPLOYMENT_ENV e = "DOCKER" →
      get_db_connection e = some (.envCredentials (getenv e "SNOWFLAKE_ACCOUNT")
        (getenv e "SNOWFLAKE_USER") (getenv e "SNOWFLAKE_PASSWORD")
        (getenvD e "SNOWFLAKE_WAREHOUSE" "COMPUTE_WH") (getenv e "SNOWFLAKE_ROLE")
        (getenv e "DEMO_DATABASE") t t)) ∧
    (DEPLOYMENT_ENV e ≠ "AWS" → DEPLOYMENT_ENV e ≠ "DOCKER" →
      get_db_connection e = some (.secretsToml t t)) ∧
    (∀ c, get_db_connection e = some c →
      c.loginTimeout = t ∧ c.networkTimeout = t) ∧
    (getenv e "SNOWFLAKE_CONNECTION_TIMEOUT" = none → t = 15) := by
  refine ⟨?_, ?_, ?_, ?_, ?_⟩
  · intro h; simp [get_db_connection, ht, h]
  · intro h; simp [get_db_connection, ht, h]
  · intro h1 h2; simp [get_db_connection, ht, h1, h2]
  · intro c hc
    rw [get_db_connection, ht] at hc
    simp only [Option.map_some'] at hc
    by_cases h1 : DEPLOYMENT_ENV e = "AWS"
    · rw [if_pos h1] at hc; cases Option.some.inj hc; exact ⟨rfl, rfl⟩
    · rw [if_neg h1] at hc
      by_cases h2 : DEPLOYMENT_ENV e = "DOCKER"
      · rw [if_pos h2] at hc; cases Option.some.inj hc; exact ⟨rfl, rfl⟩
      · rw [if_neg h2] at hc; cases Option.some.inj hc; exact ⟨rfl, rfl⟩
  · intro h
    have h15 : CONNECTION_TIMEOUT e = some 15 := by
      unfold CONNECTION_TIMEOUT getenvD
      unfold getenv at h
      rw [h]
      decide
    rw [h15] at ht
    exact (Option.some.inj ht).symm

/-- C2 witness: the three deployment modes evaluated on concrete
environments, the timeout defaulting to 15. -/
theorem connection_selects_documented_path_witness :
    get_db_connection envAWS = some (.workloadIdentity none "WORKLOAD_IDENTITY" "AWS"
      "COMPUTE_WH" none none 15 15) ∧
    get_db_connection envDocker = some (.envCredentials none none none
      "COMPUTE_WH" none none 15 15) ∧
    get_db_connection envEmpty = some (.secretsToml 15 15) :=
  ⟨(connection_selects_documented_path envAWS 15 (by decide)).1 (by decide),
   (connection_selects_documented_path envDocker 15 (by decide)).2.1 (by decide),
   (connection_selects_documented_path envEmpty 15 (by decide)).2.2.1
     (by decide) (by decide)⟩

/-- C3: whenever the load/render pipeline inside `main`'s try block fails
with message `msg`, `main` still returns (no exception escapes: it is a
total function), its output contains the generic error banner carrying
`msg`, and it contains the AWS troubleshooting checklist exactly when the
deployment mode is "AWS". -/
theorem main_handles_pipeline_failure (e : Env) (loadRes : Except String Df)
    (renderBody : Df → Except String (List Display)) (msg : String)
    (h : loadRes.bind renderBody = .error msg) :
    Display.errorBanner ("Failed to load data: " ++ msg) ∈ main e loadRes renderBody ∧
    (Display.awsChecklist ∈ main e loadRes renderBody ↔ DEPLOYMENT_ENV e = "AWS") ∧
    Display.infoCheckConnection ∈ main e loadRes renderBody := by
  unfold main
  rw [h]
  refine ⟨by simp, ?_, by simp⟩
  by_cases ha : DEPLOYMENT_ENV e = "AWS" <;> simp [ha]

/-- C3 witness: a simulated load failure in AWS mode displays the banner
and the checklist. -/
theorem main_handles_pipeline_failure_witness :
    Display.errorBanner ("Failed to load data: " ++ "boom") ∈
      main envAWS (.error "boom") (fun _ => .ok []) ∧
    Display.awsChecklist ∈ main envAWS (.error "boom") (fun _ => .ok []) :=
  have h := main_handles_pipeline_failure envAWS (.error "boom")
    (fun _ => .ok []) "boom" rfl
  ⟨h.1, h.2.1.mpr (by decide)⟩

/-- C4: deselecting every option in any one dimension yields an empty
Filtered View, and the metrics on it are zero rows, zero distinct species,
zero distinct islands, and an undefined (`none`) mean body mass; the
computation is total, so no error is raised. -/
theorem empty_selection_empties_view (df : Df) (s i x : List String)
    (h : s = [] ∨ i = [] ∨ x = []) :
    render_sidebar df s i x = [] ∧
    render_metrics (render_sidebar df s i x) =
      { totalPenguins := 0, speciesCount := 0, islandCount := 0, avgBodyMass := none } := by
  have hnil : render_sidebar df s i x = [] := by
    unfold render_sidebar applyFilter
    rw [List.filter_eq_nil_iff]
    intro r hr
    obtain ⟨sp, il, sx, b1, b2, b3, b4⟩ := r
    rcases h with h | h | h <;> subst h <;> cases sx <;> simp [rowMatches]
  exact ⟨hnil, by rw [hnil]; rfl⟩

/-- C4 witness: deselecting all species on a one-row table. -/
theorem empty_selection_empties_view_witness :
    render_sidebar [rowAdelieM] [] ["Torgersen"] ["MALE"] = [] ∧
    render_metrics (render_sidebar [rowAdelieM] [] ["Torgersen"] ["MALE"]) =
      { totalPenguins := 0, speciesCount := 0, islandCount := 0, avgBodyMass := none } :=
  empty_selection_empties_view [rowAdelieM] [] ["Torgersen"] ["MALE"] (Or.inl rfl)

/-- C5: filtering is monotonic — if one dimension's selection shrinks to a
subset while the other two stay equal, the Filtered View's row count does
not increase. -/
theorem filter_monotone (df : Df) (s1 s2 i1 i2 x1 x2 : List String)
    (h : (s1 ⊆ s2 ∧ i1 = i2 ∧ x1 = x2) ∨ (s1 = s2 ∧ i1 ⊆ i2 ∧ x1 = x2) ∨
      (s1 = s2 ∧ i1 = i2 ∧ x1 ⊆ x2)) :
    (render_sidebar df s1 i1 x1).length ≤ (render_sidebar df s2 i2 x2).length := by
  obtain ⟨hs, hi, hx⟩ : s1 ⊆ s2 ∧ i1 ⊆ i2 ∧ x1 ⊆ x2 := by
    rcases h with ⟨h1, h2, h3⟩ | ⟨h1, h2, h3⟩ | ⟨h1, h2, h3⟩
    · subst h2; subst h3; exact ⟨h1, List.Subset.refl _, List.Subset.refl _⟩
    · subst h1; subst h3; exact ⟨List.Subset.refl _, h2, List.Subset.refl _⟩
    · subst h1; subst h2; exact ⟨List.Subset.refl _, List.Subset.refl _, h3⟩
  exact (List.monotone_filter_right df (rowMatches_mono hs hi hx)).length_le

/-- C5 witness: shrinking the species selection on a concrete two-row
table. -/
theorem filter_monotone_witness :
    (render_sidebar [rowAdelieM, rowGentooF] ["Adelie"] ["Biscoe", "Torgersen"]
        ["FEMALE", "MALE"]).length ≤
      (render_sidebar [rowAdelieM, rowGentooF] ["Adelie", "Gentoo"]
        ["Biscoe", "Torgersen"] ["FEMALE", "MALE"]).length :=
  filter_monotone [rowAdelieM, rowGentooF] ["Adelie"] ["Adelie", "Gentoo"]
    ["Biscoe", "Torgersen"] ["Biscoe", "Torgersen"] ["FEMALE", "MALE"] ["FEMALE", "MALE"]
    (Or.inl ⟨by decide, rfl, rfl⟩)

/-- C6: filtering is idempotent — applying the same selections to an
already-filtered view changes nothing. -/
theorem filter_idempotent (df : Df) (s i x : List String) :
    render_sidebar (render_sidebar df s i x) s i x = render_sidebar df s i x := by
  unfold render_sidebar applyFilter
  rw [List.filter_filter]
  exact List.filter_congr fun r _ => by rw [Bool.and_self]

/-- C7: the Data Loader issues exactly the fixed statement
`SELECT * FROM <database>.PUBLIC.PENGUINS`, where `<database>` is
`DEMO_DATABASE` defaulting to "DEMO_DB", and returns every row the
warehouse produces for it, unmodified and unlimited. -/
theorem load_issues_fixed_query (e : Env) (warehouse : String → Df) :
    penguinsQuery e =
      "SELECT * FROM " ++ (getenv e "DEMO_DATABASE").getD "DEMO_DB" ++ ".PUBLIC.PENGUINS" ∧
    load_penguins_data e warehouse = warehouse (penguinsQuery e) :=
  ⟨rfl, rfl⟩

/-- C8: the Filter Engine's option sets are exactly the distinct sorted
species values, the distinct sorted island values, and the distinct sorted
non-null sex values; the default selection is all options; and for any
current selections the Filtered View consists of exactly the rows whose
species, island, and (non-null) sex values are members of the selected
sets. -/
theorem sidebar_contract (df : Df) (s i x : List String) :
    (speciesOptions df).Sorted (fun a b => strLe a b = true) ∧
    (speciesOptions df).Nodup ∧
    (∀ a, a ∈ speciesOptions df ↔ a ∈ df.map Row.species) ∧
    (islandOptions df).Sorted (fun a b => strLe a b = true) ∧
    (islandOptions df).Nodup ∧
    (∀ a, a ∈ islandOptions df ↔ a ∈ df.map Row.island) ∧
    (sexOptions df).Sorted (fun a b => strLe a b = true) ∧
    (sexOptions df).Nodup ∧
    (∀ a, a ∈ sexOptions df ↔ ∃ r ∈ df, r.sex = some a) ∧
    defaultSelections df = (speciesOptions df, islandOptions df, sexOptions df) ∧
    render_sidebar df s i x =
      df.filter fun r => decide (r.species ∈ s ∧ r.island ∈ i ∧
        ∃ v ∈ x, r.sex = some v) := by
  refine ⟨sortStrings_sorted _, sortStrings_nodup (List.nodup_dedup _),
    fun a => mem_speciesOptions,
    sortStrings_sorted _, sortStrings_nodup (List.nodup_dedup _),
    fun a => mem_islandOptions,
    sortStrings_sorted _, sortStrings_nodup (List.nodup_dedup _),
    fun a => mem_sexOptions, rfl, ?_⟩
  unfold render_sidebar applyFilter
  refine List.filter_congr fun r _ => ?_
  obtain ⟨sp, il, sx, b1, b2, b3, b4⟩ := r
  cases sx <;> simp [rowMatches, Bool.and_assoc]

/-- C1 counterexample: on a one-row table whose only row has an absent sex
value, the full default selections do not reproduce the table — the row is
dropped. -/
theorem default_filter_drops_absent_sex :
    render_sidebar [rowNoSex] (speciesOptions [rowNoSex]) (islandOptions [rowNoSex])
      (sexOptions [rowNoSex]) ≠ [rowNoSex] := by
  decide

/-- C1 amended: applying the filter with the full default option sets
returns exactly the rows of the Observation Table whose sex value is
present — those rows are neither dropped nor duplicated — while every row
with an absent sex value is dropped. -/
theorem default_filter_keeps_rows_with_sex (df : Df) :
    render_sidebar df (speciesOptions df) (islandOptions df) (sexOptions df) =
      df.filter fun r => r.sex.isSome := by
  unfold render_sidebar applyFilter
  refine List.filter_congr fun r hr => ?_
  have hsp : r.species ∈ speciesOptions df :=
    mem_speciesOptions.mpr (List.mem_map_of_mem _ hr)
  have hil : r.island ∈ islandOptions df :=
    mem_islandOptions.mpr (List.mem_map_of_mem _ hr)
  rcases hsx : r.sex with _ | v
  · simp [rowMatches, hsx]
  · have hv : v ∈ sexOptions df := mem_sexOptions.mpr ⟨r, hr, hsx⟩
    simp [rowMatches, hsx, hsp, hil, hv]

/-- C9: loading cold issues the query; re-loading within the 300-second
time-to-live window is a cache hit that issues no query and returns the
cached rows; re-loading once the window has elapsed re-executes the
query. -/
theorem cache_ttl_roundtrip (e : Env) (warehouse : String → Df) (t0 t1 : Nat) :
    (cachedLoad e warehouse t0 none).issuedQuery = true ∧
    (t1 - t0 < cacheTTL →
      (cachedLoad e warehouse t1 (cachedLoad e warehouse t0 none).cache).issuedQuery = false ∧
      (cachedLoad e warehouse t1 (cachedLoad e warehouse t0 none).cache).value =
        load_penguins_data e warehouse) ∧
    (cacheTTL ≤ t1 - t0 →
      (cachedLoad e warehouse t1 (cachedLoad e warehouse t0 none).cache).issuedQuery = true) := by
  refine ⟨rfl, ?_, ?_⟩
  · intro h
    simp [cachedLoad, h]
  · intro h
    simp [cachedLoad, Nat.not_lt.mpr h]

/-- C9 witness: a reload 10 seconds after a cold load is a hit; a reload
400 seconds after is a re-execution. -/
theorem cache_ttl_roundtrip_witness :
    (cachedLoad envEmpty warehouseEmpty 10
      (cachedLoad envEmpty warehouseEmpty 0 none).cache).issuedQuery = false ∧
    (cachedLoad envEmpty warehouseEmpty 400
      (cachedLoad envEmpty warehouseEmpty 0 none).cache).issuedQuery = true :=
  ⟨((cache_ttl_roundtrip envEmpty warehouseEmpty 0 10).2.1 (by decide)).1,
   (cache_ttl_roundtrip envEmpty warehouseEmpty 0 400).2.2 (by decide)⟩

/-- C10: every row of the Filtered View is a row of the Observation Table
whose sex value is present; a row with an absent sex value never appears,
whatever the selections, because a null value passes no membership test. -/
theorem filtered_rows_come_from_table_with_sex (df : Df) (s i x : List String)
    (r : Row) (hr : r ∈ render_sidebar df s i x) :
    r ∈ df ∧ r.sex ≠ none := by
  unfold render_sidebar applyFilter at hr
  have h := List.mem_filter.mp hr
  refine ⟨h.1, ?_⟩
  intro hnone
  have hm := h.2
  unfold rowMatches at hm
  rw [hnone] at hm
  simp at hm

/-- C10 witness: a row surviving a concrete filter is in the table and has
a sex value. -/
theorem filtered_rows_come_from_table_with_sex_witness :
    rowAdelieM ∈ [rowAdelieM, rowNoSex] ∧ rowAdelieM.sex ≠ none :=
  filtered_rows_come_from_table_with_sex [rowAdelieM, rowNoSex]
    ["Adelie"] ["Torgersen"] ["MALE"] rowAdelieM (by decide)

end Penguins
